import Mathlib

/-!
# Verification of the Athena Adobe Data Feed splitter's Glue-catalog reconciler

Shallow embedding of `src/main/python/lambda_handler.py`.

The module orchestrates four create-if-absent steps against the AWS Glue Data
Catalog: database, `hit_data` base table, a fixed list of lookup tables, and a
date partition.  We embed the Python functions faithfully:

* the Glue client is a record of operations (`GlueClient`), so that both the
  honest catalog-backed client and fault-injecting clients can be plugged in;
* the honest catalog service (`glueService`) models the documented AWS Glue
  semantics: a point lookup on a missing entity raises `entityNotFound`, a
  create on a present entity raises `alreadyExists`, and a create otherwise
  appends the entity;
* every repo-level function returns, alongside its `Except` result, the list
  of catalog calls it performed (`GlueCall`), in order, so that temporal and
  frame claims are expressible;
* S3 plus gzip plus UTF-8 decoding are collapsed into an oracle
  `s3 : String -> Option String` giving, per object path, the decoded text of
  the (decompressed) object, or `none` when the object is missing;
* `time.time()` is modelled as an explicit `now : Nat` parameter;
* Python string operations are modelled executably over the character list of
  the string: `str.strip()` drops whitespace from BOTH ends (`pyStrip`),
  `str.split(sep)` always yields at least one, possibly empty, group
  (`pySplit`), `str.rstrip('/')` drops trailing slashes (`rstripSlash`), and
  `os.path.join` is `pyJoin` (posix semantics for the components used here).
-/

deriving instance DecidableEq for Except

/-- Errors that the AWS SDK calls made by the handler can surface.
`entityNotFound` and `alreadyExists` are Glue's `EntityNotFoundException`
and `AlreadyExistsException`; `accessDenied`, `serviceUnavailable` and
`invalidInput` stand for the other documented Glue failures; `s3Error` is a
botocore `ClientError` from the S3 `get_object` call (a distinct exception
class, never caught by the handler's `except EntityNotFoundException`). -/
inductive PyErr where
  | entityNotFound
  | alreadyExists
  | accessDenied
  | serviceUnavailable
  | invalidInput
  | s3Error
  deriving DecidableEq, Repr

/-- A column of a Glue storage descriptor: the dicts
`\x7b"Type": "string", "Name": name\x7d` of the source. -/
structure Column where
  Name : String
  Typ : String
  deriving DecidableEq, Repr

/-- The `SerdeInfo` dict built by `storage_descriptor`. -/
structure SerdeInfoV where
  SerializationLibrary : String
  Parameters : List (String × String)
  deriving DecidableEq, Repr

/-- The dict returned by `storage_descriptor`. -/
structure StorageDescriptor where
  Columns : List Column
  Location : String
  InputFormat : String
  OutputFormat : String
  SerdeInfo : SerdeInfoV
  BucketColumns : List String
  Parameters : List (String × String)
  deriving DecidableEq, Repr

/-- The `TableInput` dict passed to `glue_client.create_table`. -/
structure TableInput where
  Name : String
  StorageDescriptor : StorageDescriptor
  PartitionKeys : List Column
  TableType : String
  Parameters : List (String × String)
  LastAccessTime : Nat
  deriving DecidableEq, Repr

/-- The `PartitionInput` dict passed to `glue_client.create_partition`. -/
structure PartitionInput where
  Values : List String
  StorageDescriptor : StorageDescriptor
  Parameters : List (String × String)
  deriving DecidableEq, Repr

/-- One call made to the Glue catalog, with its payload.  The embedded repo
functions log each call they issue, in order. -/
inductive GlueCall where
  | getDatabase (name : String)
  | createDatabase (name : String)
  | getTable (db tbl : String)
  | createTable (db : String) (input : TableInput)
  | getPartition (db tbl : String) (values : List String)
  | createPartition (db tbl : String) (input : PartitionInput)
  deriving DecidableEq, Repr

/-- Is this catalog call a write (a create)? -/
def GlueCall.isCreate : GlueCall → Bool
  | .createDatabase _ => true
  | .createTable _ _ => true
  | .createPartition _ _ _ => true
  | _ => false

/-- The Glue client interface used by the handler, over an abstract catalog
state `σ`.  `get_*` are point lookups returning unit on success,
`create_*` return the updated state. -/
structure GlueClient (σ : Type) where
  get_database : σ → String → Except PyErr Unit
  create_database : σ → String → Except PyErr σ
  get_table : σ → String → String → Except PyErr Unit
  create_table : σ → String → TableInput → Except PyErr σ
  get_partition : σ → String → String → List String → Except PyErr Unit
  create_partition : σ → String → String → PartitionInput → Except PyErr σ

/-- The Glue Data Catalog state: databases by name, tables as
(database, table-input) pairs, partitions as (database, table, input) triples. -/
structure CatalogState where
  databases : List String
  tables : List (String × TableInput)
  partitions : List (String × String × PartitionInput)
  deriving DecidableEq, Repr

/-- Does the catalog hold a table of this name in this database? -/
def CatalogState.hasTable (st : CatalogState) (db tbl : String) : Bool :=
  st.tables.any fun p => decide (p.1 = db ∧ p.2.Name = tbl)

/-- Does the catalog hold a partition of this table with these values? -/
def CatalogState.hasPartition (st : CatalogState) (db tbl : String)
    (values : List String) : Bool :=
  st.partitions.any fun p => decide (p.1 = db ∧ p.2.1 = tbl ∧ p.2.2.Values = values)

/-- First table of this name in this database, if any. -/
def CatalogState.findTable (st : CatalogState) (db tbl : String) :
    Option TableInput :=
  (st.tables.find? fun p => decide (p.1 = db ∧ p.2.Name = tbl)).map Prod.snd

/-- The honest catalog-backed Glue client, with the documented AWS Glue
semantics: lookups on missing entities fail with `entityNotFound`, creates of
present entities fail with `alreadyExists`, creates of entities whose parent
is missing fail with `entityNotFound`, and successful creates append. -/
def glueService : GlueClient CatalogState where
  get_database st name :=
    if name ∈ st.databases then .ok () else .error .entityNotFound
  create_database st name :=
    if name ∈ st.databases then .error .alreadyExists
    else .ok { st with databases := st.databases ++ [name] }
  get_table st db tbl :=
    if st.hasTable db tbl then .ok () else .error .entityNotFound
  create_table st db input :=
    if db ∉ st.databases then .error .entityNotFound
    else if st.hasTable db input.Name then .error .alreadyExists
    else .ok { st with tables := st.tables ++ [(db, input)] }
  get_partition st db tbl values :=
    if st.hasPartition db tbl values then .ok () else .error .entityNotFound
  create_partition st db tbl input :=
    if ¬ st.hasTable db tbl then .error .entityNotFound
    else if st.hasPartition db tbl input.Values then .error .alreadyExists
    else .ok { st with partitions := st.partitions ++ [(db, tbl, input)] }

/-- Python `str.strip()`: drop whitespace from both ends of the string. -/
def pyStrip (s : String) : String :=
  String.mk (((s.data.dropWhile Char.isWhitespace).reverse.dropWhile
    Char.isWhitespace).reverse)

/-- Python `str.rstrip()` with no argument: drop trailing whitespace only. -/
def pyStripRight (s : String) : String :=
  String.mk ((s.data.reverse.dropWhile Char.isWhitespace).reverse)

/-- Split a character list on a separator.  Always returns at least one
(possibly empty) group, matching Python `str.split(sep)`. -/
def splitOnChar (sep : Char) : List Char → List (List Char)
  | [] => [[]]
  | c :: rest =>
    match splitOnChar sep rest with
    | [] => [[]]
    | g :: gs => if c = sep then [] :: g :: gs else (c :: g) :: gs

/-- Python `s.split(sep)` for a one-character separator. -/
def pySplit (s : String) (sep : Char) : List String :=
  (splitOnChar sep s.data).map String.mk

/-- Does this string start with a slash?  (Decides the absolute-path branch of
`os.path.join`.) -/
def startsWithSlash (s : String) : Bool :=
  s.data.head? = some '/'

/-- Does this string end with a slash? -/
def endsWithSlash (s : String) : Bool :=
  s.data.getLast? = some '/'

/-- Posix `os.path.join` for two components: an absolute second component
replaces the first; an empty or slash-terminated first component is
concatenated directly; otherwise a separating slash is inserted. -/
def pyJoin (a b : String) : String :=
  if startsWithSlash b then b
  else if a = "" || endsWithSlash a then a ++ b
  else a ++ "/" ++ b

/-- `os.path.join(s3_report_base, "rawtsv", "column_headers", "dt=%s" % partition_date,
"column_headers.tsv.gz")` from `get_headers`. -/
def headerFilePath (s3_report_base partition_date : String) : String :=
  pyJoin (pyJoin (pyJoin (pyJoin s3_report_base "rawtsv") "column_headers")
    ("dt=" ++ partition_date)) "column_headers.tsv.gz"

/-- `get_headers`: fetch the column-headers object for the date (the S3 get,
gunzip and UTF-8 decode are the oracle `s3`; a missing or unreadable object is
the uncaught `s3Error`), strip whitespace from both ends (Python `str.strip()`),
and split on the tab character. -/
def get_headers (s3 : String → Option String)
    (s3_report_base partition_date : String) : Except PyErr (List String) :=
  match s3 (headerFilePath s3_report_base partition_date) with
  | none => .error .s3Error
  | some got_text => .ok (pySplit (pyStrip got_text) '\t')

/-- `storage_descriptor`: build a Data Catalog storage descriptor with the
given columns and S3 location. -/
def storage_descriptor (columns : List Column) (location : String) :
    StorageDescriptor where
  Columns := columns
  Location := location
  InputFormat := "org.apache.hadoop.mapred.TextInputFormat"
  OutputFormat := "org.apache.hadoop.hive.ql.io.HiveIgnoreKeyTextOutputFormat"
  SerdeInfo :=
    { SerializationLibrary := "org.apache.hadoop.hive.serde2.OpenCSVSerde",
      Parameters := [("separatorChar", "\t")] }
  BucketColumns := []
  Parameters := []

/-- `create_db`: create the specified Glue database if it does not exist.
Only `EntityNotFoundException` from the lookup is caught; every error of the
create call itself propagates. -/
def create_db (c : GlueClient σ) (st : σ) (database_name : String) :
    Except PyErr σ × List GlueCall :=
  match c.get_database st database_name with
  | .ok _ => (.ok st, [.getDatabase database_name])
  | .error .entityNotFound =>
    match c.create_database st database_name with
    | .ok st' => (.ok st', [.getDatabase database_name, .createDatabase database_name])
    | .error e => (.error e, [.getDatabase database_name, .createDatabase database_name])
  | .error e => (.error e, [.getDatabase database_name])

/-- `does_table_exist`: `True` on a successful `get_table`, `False` exactly on
`EntityNotFoundException`; any other error propagates. -/
def does_table_exist (c : GlueClient σ) (st : σ) (database table : String) :
    Except PyErr Bool × List GlueCall :=
  (match c.get_table st database table with
   | .ok _ => .ok true
   | .error .entityNotFound => .ok false
   | .error e => .error e,
   [.getTable database table])

/-- `does_partition_exist`: `True` on a successful `get_partition`, `False`
exactly on `EntityNotFoundException`; any other error propagates. -/
def does_partition_exist (c : GlueClient σ) (st : σ)
    (database table : String) (part_values : List String) :
    Except PyErr Bool × List GlueCall :=
  (match c.get_partition st database table part_values with
   | .ok _ => .ok true
   | .error .entityNotFound => .ok false
   | .error e => .error e,
   [.getPartition database table part_values])

/-- The `TableInput` dict that `create_glue_table` passes to `create_table`. -/
def hitDataTableInput (s3_report_base : String) (now : Nat)
    (headers : List String) : TableInput where
  Name := "hit_data"
  StorageDescriptor :=
    storage_descriptor
      (headers.map fun name => { Typ := "string", Name := name })
      (s3_report_base ++ "/rawtsv/hit_data/")
  PartitionKeys := [{ Name := "dt", Typ := "string" }]
  TableType := "EXTERNAL_TABLE"
  Parameters := []
  LastAccessTime := now

/-- `create_glue_table`: create the base `hit_data` table if it does not
exist, deriving its columns from the date's header file. -/
def create_glue_table (c : GlueClient σ) (s3 : String → Option String)
    (st : σ) (database_name s3_report_base partition_date : String)
    (now : Nat) : Except PyErr σ × List GlueCall :=
  match does_table_exist c st database_name "hit_data" with
  | (.error e, t) => (.error e, t)
  | (.ok true, t) => (.ok st, t)
  | (.ok false, t) =>
    match get_headers s3 s3_report_base partition_date with
    | .error e => (.error e, t)
    | .ok headers =>
      match c.create_table st database_name
          (hitDataTableInput s3_report_base now headers) with
      | .ok st' =>
        (.ok st', t ++ [.createTable database_name
          (hitDataTableInput s3_report_base now headers)])
      | .error e =>
        (.error e, t ++ [.createTable database_name
          (hitDataTableInput s3_report_base now headers)])

/-- The `PartitionInput` dict that `add_hitdata_partition` passes to
`create_partition`. -/
def hitDataPartitionInput (s3_report_base partition_date : String)
    (headers : List String) : PartitionInput where
  Values := [partition_date]
  StorageDescriptor :=
    storage_descriptor
      (headers.map fun name => { Typ := "string", Name := name })
      (s3_report_base ++ "/rawtsv/hit_data/dt=" ++ partition_date ++ "/")
  Parameters := []

/-- `add_hitdata_partition`: add a partition to the `hit_data` table for the
given date if it does not exist, re-fetching the date's header file. -/
def add_hitdata_partition (c : GlueClient σ) (s3 : String → Option String)
    (st : σ) (database_name s3_report_base partition_date : String) :
    Except PyErr σ × List GlueCall :=
  match does_partition_exist c st database_name "hit_data" [partition_date] with
  | (.error e, t) => (.error e, t)
  | (.ok true, t) => (.ok st, t)
  | (.ok false, t) =>
    match get_headers s3 s3_report_base partition_date with
    | .error e => (.error e, t)
    | .ok headers =>
      match c.create_partition st database_name "hit_data"
          (hitDataPartitionInput s3_report_base partition_date headers) with
      | .ok st' =>
        (.ok st', t ++ [.createPartition database_name "hit_data"
          (hitDataPartitionInput s3_report_base partition_date headers)])
      | .error e =>
        (.error e, t ++ [.createPartition database_name "hit_data"
          (hitDataPartitionInput s3_report_base partition_date headers)])

/-- The `generic_lookup_types` list of `create_lookup_tables`. -/
def generic_lookup_types : List String :=
  ["browser", "browser_type", "color_depth", "connection_type", "country",
   "javascript_version", "languages", "operating_systems", "plugins",
   "resolution", "referrer_type", "search_engines"]

/-- The `TableInput` dict that `create_lookup_tables` passes to
`create_table` for a lookup table. -/
def lookupTableInput (s3_lookup_uri lookup_name : String) (now : Nat) :
    TableInput where
  Name := lookup_name
  StorageDescriptor :=
    storage_descriptor
      [{ Typ := "string", Name := "id" }, { Typ := "string", Name := "value" }]
      (s3_lookup_uri ++ "/" ++ lookup_name ++ "/")
  PartitionKeys := []
  TableType := "EXTERNAL_TABLE"
  Parameters := []
  LastAccessTime := now

/-- The `for lookup_name in generic_lookup_types` loop of
`create_lookup_tables`, over an explicit remaining-names list. -/
def lookupLoop (c : GlueClient σ) (database_name s3_lookup_uri : String)
    (now : Nat) : σ → List String → Except PyErr σ × List GlueCall
  | st, [] => (.ok st, [])
  | st, lookup_name :: rest =>
    match does_table_exist c st database_name lookup_name with
    | (.error e, t) => (.error e, t)
    | (.ok true, t) =>
      let r := lookupLoop c database_name s3_lookup_uri now st rest
      (r.1, t ++ r.2)
    | (.ok false, t) =>
      match c.create_table st database_name
          (lookupTableInput s3_lookup_uri lookup_name now) with
      | .error e =>
        (.error e, t ++ [.createTable database_name
          (lookupTableInput s3_lookup_uri lookup_name now)])
      | .ok st' =>
        let r := lookupLoop c database_name s3_lookup_uri now st' rest
        (r.1, t ++ [.createTable database_name
          (lookupTableInput s3_lookup_uri lookup_name now)] ++ r.2)

/-- `create_lookup_tables`: create every Adobe Analytics lookup table that
does not already exist. -/
def create_lookup_tables (c : GlueClient σ) (st : σ)
    (database_name s3_lookup_uri : String) (now : Nat) :
    Except PyErr σ × List GlueCall :=
  lookupLoop c database_name s3_lookup_uri now st generic_lookup_types

/-- The Lambda invocation event: `reportBase`, `lookupURI`, `reportDate`. -/
structure Event where
  reportBase : String
  lookupURI : String
  reportDate : String

/-- Python `str.rstrip('/')`: drop trailing slashes. -/
def rstripSlash (s : String) : String :=
  String.mk ((s.data.reverse.dropWhile (fun c => c = '/')).reverse)

/-- `handler`: strip trailing slashes off the URIs, then run the four steps in
order — database, base table, lookup tables, partition — threading the catalog
state and concatenating the call traces.  The database name comes from the
environment (`DB_NAME`), modelled as the `glue_database` parameter; a failing
step aborts the remaining steps. -/
def handler (c : GlueClient σ) (s3 : String → Option String) (event : Event)
    (glue_database : String) (now : Nat) (st : σ) :
    Except PyErr σ × List GlueCall :=
  let s3_report_base := rstripSlash event.reportBase
  let lookup_location := rstripSlash event.lookupURI
  let partition_date := event.reportDate
  match create_db c st glue_database with
  | (.error e, t1) => (.error e, t1)
  | (.ok s1, t1) =>
    match create_glue_table c s3 s1 glue_database s3_report_base
        partition_date now with
    | (.error e, t2) => (.error e, t1 ++ t2)
    | (.ok s2, t2) =>
      match create_lookup_tables c s2 glue_database lookup_location now with
      | (.error e, t3) => (.error e, t1 ++ t2 ++ t3)
      | (.ok s3', t3) =>
        match add_hitdata_partition c s3 s3' glue_database s3_report_base
            partition_date with
        | (r, t4) => (r, t1 ++ t2 ++ t3 ++ t4)

/-! ## Specification-side variants and concrete fixtures -/

/-- The header resolver as the specification words it (claim C5): fetch the
object at the literal template path, trim only TRAILING whitespace/newline,
and split on the tab character. -/
def get_headers_spec (s3 : String → Option String)
    (s3_report_base partition_date : String) : Except PyErr (List String) :=
  match s3 (s3_report_base ++ "/rawtsv/column_headers/dt=" ++ partition_date
      ++ "/column_headers.tsv.gz") with
  | none => .error .s3Error
  | some got_text => .ok (pySplit (pyStripRight got_text) '\t')

/-- The amended header resolver: the same template path, but trimming
whitespace from BOTH ends, as the code's `str.strip()` does. -/
def get_headers_spec_amended (s3 : String → Option String)
    (s3_report_base partition_date : String) : Except PyErr (List String) :=
  match s3 (s3_report_base ++ "/rawtsv/column_headers/dt=" ++ partition_date
      ++ "/column_headers.tsv.gz") with
  | none => .error .s3Error
  | some got_text => .ok (pySplit (pyStrip got_text) '\t')

/-- A client exhibiting the check-then-act race of §5: every existence probe
reports not-found (as the loser of the race observes), and every create is
rejected with `AlreadyExistsException` (the concurrent winner got there
first).  The state is trivial since no create ever succeeds. -/
def raceClient : GlueClient Unit where
  get_database _ _ := .error .entityNotFound
  create_database _ _ := .error .alreadyExists
  get_table _ _ _ := .error .entityNotFound
  create_table _ _ _ := .error .alreadyExists
  get_partition _ _ _ _ := .error .entityNotFound
  create_partition _ _ _ _ := .error .alreadyExists

/-- A client whose every call is rejected with `AccessDeniedException`. -/
def deniedClient : GlueClient Unit where
  get_database _ _ := .error .accessDenied
  create_database _ _ := .error .accessDenied
  get_table _ _ _ := .error .accessDenied
  create_table _ _ _ := .error .accessDenied
  get_partition _ _ _ _ := .error .accessDenied
  create_partition _ _ _ _ := .error .accessDenied

/-- Concrete S3 fixture: header files for two dates under one report base. -/
def demoS3 : String → Option String := fun p =>
  if p = "s3://bucket/feed/rawtsv/column_headers/dt=2024-03-01/column_headers.tsv.gz"
  then some "a\tb\tc\n"
  else if p = "s3://bucket/feed/rawtsv/column_headers/dt=2024-04-01/column_headers.tsv.gz"
  then some "x\ty\n"
  else none

/-- Concrete S3 fixture whose header content has LEADING whitespace. -/
def leadingWsS3 : String → Option String := fun p =>
  if p = "s3://b/rawtsv/column_headers/dt=2024-01-01/column_headers.tsv.gz"
  then some " a\tb" else none

/-- Concrete S3 fixture whose header content is only whitespace. -/
def wsOnlyS3 : String → Option String := fun p =>
  if p = "s3://w/rawtsv/column_headers/dt=2024-01-01/column_headers.tsv.gz"
  then some "  \n" else none

/-- Concrete invocation event (the end-to-end scenario of §8). -/
def demoEvent : Event where
  reportBase := "s3://bucket/feed/"
  lookupURI := "s3://bucket/lookup"
  reportDate := "2024-03-01"

/-- The empty catalog. -/
def emptyCatalog : CatalogState where
  databases := []
  tables := []
  partitions := []

/-- A catalog holding only the target database. -/
def dbOnlyCatalog : CatalogState where
  databases := ["db"]
  tables := []
  partitions := []

/-- A pre-existing table named `browser` whose schema is NOT the two-column
lookup schema. -/
def oddBrowserTable : TableInput where
  Name := "browser"
  StorageDescriptor :=
    storage_descriptor [{ Name := "x", Typ := "string" }]
      "s3://elsewhere/browser/"
  PartitionKeys := []
  TableType := "EXTERNAL_TABLE"
  Parameters := []
  LastAccessTime := 0

/-- A catalog already holding the divergent `browser` table. -/
def preSeededCatalog : CatalogState where
  databases := ["db"]
  tables := [("db", oddBrowserTable)]
  partitions := []

/-- The catalog produced by running the handler on the demo fixtures from the
empty catalog. -/
def demoRunState : CatalogState :=
  (handler glueService demoS3 demoEvent "adobedb" 0 emptyCatalog).1.toOption.getD
    emptyCatalog

/-- The call trace of that same demo run. -/
def demoRunTrace : List GlueCall :=
  (handler glueService demoS3 demoEvent "adobedb" 0 emptyCatalog).2

/-- The catalog produced by running only the lookup-table step on a catalog
holding just the database. -/
def lookupRunState : CatalogState :=
  (create_lookup_tables glueService dbOnlyCatalog "db" "s3://lookup" 0).1.toOption.getD
    emptyCatalog

/-- The call trace of that lookup-table run. -/
def lookupRunTrace : List GlueCall :=
  (create_lookup_tables glueService dbOnlyCatalog "db" "s3://lookup" 0).2

/-! ## Closed forms of the reconciliation steps over the honest catalog -/

/-- Projection: the honest client's database lookup. -/
theorem glueService_get_database (st : CatalogState) (n : String) :
    glueService.get_database st n =
      if n ∈ st.databases then .ok () else .error .entityNotFound := rfl

/-- Projection: the honest client's database create. -/
theorem glueService_create_database (st : CatalogState) (n : String) :
    glueService.create_database st n =
      if n ∈ st.databases then .error .alreadyExists
      else .ok { st with databases := st.databases ++ [n] } := rfl

/-- Projection: the honest client's table lookup. -/
theorem glueService_get_table (st : CatalogState) (db tbl : String) :
    glueService.get_table st db tbl =
      if st.hasTable db tbl then .ok () else .error .entityNotFound := rfl

/-- Projection: the honest client's table create. -/
theorem glueService_create_table (st : CatalogState) (db : String)
    (input : TableInput) :
    glueService.create_table st db input =
      if db ∉ st.databases then .error .entityNotFound
      else if st.hasTable db input.Name then .error .alreadyExists
      else .ok { st with tables := st.tables ++ [(db, input)] } := rfl

/-- Projection: the honest client's partition lookup. -/
theorem glueService_get_partition (st : CatalogState) (db tbl : String)
    (values : List String) :
    glueService.get_partition st db tbl values =
      if st.hasPartition db tbl values then .ok ()
      else .error .entityNotFound := rfl

/-- Projection: the honest client's partition create. -/
theorem glueService_create_partition (st : CatalogState) (db tbl : String)
    (input : PartitionInput) :
    glueService.create_partition st db tbl input =
      if ¬ st.hasTable db tbl then .error .entityNotFound
      else if st.hasPartition db tbl input.Values then .error .alreadyExists
      else .ok { st with partitions := st.partitions ++ [(db, tbl, input)] } := rfl

/-- `create_db` over the honest catalog: skip when the database exists,
append it otherwise. -/
theorem create_db_glueService (st : CatalogState) (n : String) :
    create_db glueService st n =
      if n ∈ st.databases then (.ok st, [.getDatabase n])
      else (.ok { st with databases := st.databases ++ [n] },
            [.getDatabase n, .createDatabase n]) := by
  by_cases h : n ∈ st.databases <;>
    simp [create_db, glueService_get_database, glueService_create_database, h]

/-- `does_table_exist` over the honest catalog reports `st.hasTable`. -/
theorem does_table_exist_glueService (st : CatalogState) (db tbl : String) :
    does_table_exist glueService st db tbl =
      (.ok (st.hasTable db tbl), [.getTable db tbl]) := by
  by_cases h : st.hasTable db tbl <;>
    simp [does_table_exist, glueService_get_table, h]

/-- `does_partition_exist` over the honest catalog reports `st.hasPartition`. -/
theorem does_partition_exist_glueService (st : CatalogState)
    (db tbl : String) (values : List String) :
    does_partition_exist glueService st db tbl values =
      (.ok (st.hasPartition db tbl values), [.getPartition db tbl values]) := by
  by_cases h : st.hasPartition db tbl values <;>
    simp [does_partition_exist, glueService_get_partition, h]

/-- `create_glue_table` over the honest catalog: skip when `hit_data` exists;
otherwise fetch headers (propagating a fetch failure), then create, which
fails exactly when the database is missing. -/
theorem create_glue_table_glueService (s3 : String → Option String)
    (st : CatalogState) (db base date : String) (now : Nat) :
    create_glue_table glueService s3 st db base date now =
      if st.hasTable db "hit_data" then (.ok st, [.getTable db "hit_data"])
      else
        match get_headers s3 base date with
        | .error e => (.error e, [.getTable db "hit_data"])
        | .ok headers =>
          if db ∈ st.databases then
            (.ok { st with tables :=
                st.tables ++ [(db, hitDataTableInput base now headers)] },
             [.getTable db "hit_data",
              .createTable db (hitDataTableInput base now headers)])
          else
            (.error .entityNotFound,
             [.getTable db "hit_data",
              .createTable db (hitDataTableInput base now headers)]) := by
  by_cases h : st.hasTable db "hit_data"
  · simp [create_glue_table, does_table_exist_glueService, h]
  · cases hh : get_headers s3 base date with
    | error e => simp [create_glue_table, does_table_exist_glueService, h, hh]
    | ok headers =>
      by_cases hdb : db ∈ st.databases <;>
        simp [create_glue_table, does_table_exist_glueService, h, hh,
          glueService_create_table, hdb, hitDataTableInput]

/-- `add_hitdata_partition` over the honest catalog: skip when the date's
partition exists; otherwise fetch headers (propagating a fetch failure), then
create, which fails exactly when the `hit_data` table is missing. -/
theorem add_hitdata_partition_glueService (s3 : String → Option String)
    (st : CatalogState) (db base date : String) :
    add_hitdata_partition glueService s3 st db base date =
      if st.hasPartition db "hit_data" [date] then
        (.ok st, [.getPartition db "hit_data" [date]])
      else
        match get_headers s3 base date with
        | .error e => (.error e, [.getPartition db "hit_data" [date]])
        | .ok headers =>
          if st.hasTable db "hit_data" then
            (.ok { st with partitions := st.partitions ++
                [(db, "hit_data", hitDataPartitionInput base date headers)] },
             [.getPartition db "hit_data" [date],
              .createPartition db "hit_data"
                (hitDataPartitionInput base date headers)])
          else
            (.error .entityNotFound,
             [.getPartition db "hit_data" [date],
              .createPartition db "hit_data"
                (hitDataPartitionInput base date headers)]) := by
  by_cases h : st.hasPartition db "hit_data" [date]
  · simp [add_hitdata_partition, does_partition_exist_glueService, h]
  · cases hh : get_headers s3 base date with
    | error e =>
      simp [add_hitdata_partition, does_partition_exist_glueService, h, hh]
    | ok headers =>
      by_cases ht : st.hasTable db "hit_data" <;>
        simp [add_hitdata_partition, does_partition_exist_glueService, h, hh,
          glueService_create_partition, ht, hitDataPartitionInput]

/-! ## Monotonicity and per-step postconditions over the honest catalog -/

/-- Table existence survives appending further tables. -/
theorem hasTable_mono {st st' : CatalogState} {new : List (String × TableInput)}
    (heq : st'.tables = st.tables ++ new) {db tbl : String}
    (h : st.hasTable db tbl = true) : st'.hasTable db tbl = true := by
  simp only [CatalogState.hasTable, heq, List.any_append, Bool.or_eq_true]
  exact Or.inl h

/-- Table absence restricts to a prefix of the tables list. -/
theorem hasTable_anti {st st' : CatalogState} {new : List (String × TableInput)}
    (heq : st'.tables = st.tables ++ new) {db tbl : String}
    (h : st'.hasTable db tbl = false) : st.hasTable db tbl = false := by
  simp only [CatalogState.hasTable, heq, List.any_append,
    Bool.or_eq_false_iff] at h
  exact h.1

/-- Partition existence survives appending further partitions. -/
theorem hasPartition_mono {st st' : CatalogState}
    {new : List (String × String × PartitionInput)}
    (heq : st'.partitions = st.partitions ++ new)
    {db tbl : String} {values : List String}
    (h : st.hasPartition db tbl values = true) :
    st'.hasPartition db tbl values = true := by
  simp only [CatalogState.hasPartition, heq, List.any_append, Bool.or_eq_true]
  exact Or.inl h

/-- A first table lookup result survives appending further tables. -/
theorem findTable_mono {st st' : CatalogState}
    {new : List (String × TableInput)}
    (heq : st'.tables = st.tables ++ new) {db tbl : String} {v : TableInput}
    (h : st.findTable db tbl = some v) : st'.findTable db tbl = some v := by
  simp only [CatalogState.findTable, Option.map_eq_some'] at h ⊢
  obtain ⟨p, hp, hv⟩ := h
  exact ⟨p, by rw [heq, List.find?_append, hp]; rfl, hv⟩

/-- A successful `create_db` ensures the database is present and leaves
tables and partitions untouched. -/
theorem create_db_post {st st' : CatalogState} {n : String} {t : List GlueCall}
    (h : create_db glueService st n = (.ok st', t)) :
    n ∈ st'.databases ∧ st'.tables = st.tables ∧
      st'.partitions = st.partitions := by
  rw [create_db_glueService] at h
  by_cases hm : n ∈ st.databases
  · rw [if_pos hm] at h
    simp only [Prod.mk.injEq, Except.ok.injEq] at h
    rw [← h.1]
    exact ⟨hm, rfl, rfl⟩
  · rw [if_neg hm] at h
    simp only [Prod.mk.injEq, Except.ok.injEq] at h
    rw [← h.1]
    simp

/-- A successful `create_glue_table` ensures the `hit_data` table is present,
leaves databases and partitions untouched, and only appends tables. -/
theorem create_glue_table_post {s3 : String → Option String}
    {st st' : CatalogState} {db base date : String} {now : Nat}
    {t : List GlueCall}
    (h : create_glue_table glueService s3 st db base date now = (.ok st', t)) :
    st'.hasTable db "hit_data" = true ∧ st'.databases = st.databases ∧
      st'.partitions = st.partitions ∧
      ∃ new, st'.tables = st.tables ++ new := by
  rw [create_glue_table_glueService] at h
  by_cases ht : st.hasTable db "hit_data"
  · rw [if_pos ht] at h
    simp only [Prod.mk.injEq, Except.ok.injEq] at h
    rw [← h.1]
    exact ⟨ht, rfl, rfl, [], by simp⟩
  · rw [if_neg ht] at h
    cases hh : get_headers s3 base date with
    | error e => rw [hh] at h; simp at h
    | ok headers =>
      simp only [hh] at h
      by_cases hdb : db ∈ st.databases
      · rw [if_pos hdb] at h
        simp only [Prod.mk.injEq, Except.ok.injEq] at h
        rw [← h.1]
        refine ⟨?_, rfl, rfl, _, rfl⟩
        simp [CatalogState.hasTable, List.any_append, hitDataTableInput]
      · rw [if_neg hdb] at h
        simp at h

/-- A successful `add_hitdata_partition` ensures the date's partition is
present, leaves databases and tables untouched, and only appends
partitions. -/
theorem add_hitdata_partition_post {s3 : String → Option String}
    {st st' : CatalogState} {db base date : String} {t : List GlueCall}
    (h : add_hitdata_partition glueService s3 st db base date = (.ok st', t)) :
    st'.hasPartition db "hit_data" [date] = true ∧
      st'.databases = st.databases ∧ st'.tables = st.tables ∧
      ∃ new, st'.partitions = st.partitions ++ new := by
  rw [add_hitdata_partition_glueService] at h
  by_cases hp : st.hasPartition db "hit_data" [date]
  · rw [if_pos hp] at h
    simp only [Prod.mk.injEq, Except.ok.injEq] at h
    rw [← h.1]
    exact ⟨hp, rfl, rfl, [], by simp⟩
  · rw [if_neg hp] at h
    cases hh : get_headers s3 base date with
    | error e => rw [hh] at h; simp at h
    | ok headers =>
      simp only [hh] at h
      by_cases ht : st.hasTable db "hit_data"
      · rw [if_pos ht] at h
        simp only [Prod.mk.injEq, Except.ok.injEq] at h
        rw [← h.1]
        refine ⟨?_, rfl, rfl, _, rfl⟩
        simp [CatalogState.hasPartition, List.any_append, hitDataPartitionInput]
      · rw [if_neg ht] at h
        simp at h

/-! ## The lookup-table loop over the honest catalog -/

/-- If a table name is absent, `findTable` scans past the whole prefix. -/
theorem findTable_of_absent {st st' : CatalogState} {db n : String}
    {input : TableInput} (habs : st.hasTable db n = false)
    (hname : input.Name = n)
    (heq : st'.tables = st.tables ++ [(db, input)]) :
    st'.findTable db n = some input := by
  have hnone : st.tables.find?
      (fun p => decide (p.1 = db) && decide (p.2.Name = n)) = none := by
    rw [List.find?_eq_none]
    intro p hp
    have := List.any_eq_false.mp habs p hp
    simpa using this
  simp [CatalogState.findTable, heq, List.find?_append, hnone, hname]

/-- When every listed table already exists, the loop reads and never
writes. -/
theorem lookupLoop_skip {db uri : String} {now : Nat} {st : CatalogState}
    {names : List String} (h : ∀ n ∈ names, st.hasTable db n = true) :
    lookupLoop glueService db uri now st names =
      (.ok st, names.map fun n => GlueCall.getTable db n) := by
  induction names with
  | nil => simp [lookupLoop]
  | cons m rest ih =>
    have hm := h m (by simp)
    have ihr := ih fun n hn => h n (by simp [hn])
    simp [lookupLoop, does_table_exist_glueService, hm, ihr]

/-- Postcondition of a successful loop run: databases and partitions are
untouched, tables only grow, and every listed table exists afterwards. -/
theorem lookupLoop_post {db uri : String} {now : Nat} :
    ∀ {names : List String} {st st' : CatalogState} {t : List GlueCall},
    lookupLoop glueService db uri now st names = (.ok st', t) →
    st'.databases = st.databases ∧ st'.partitions = st.partitions ∧
      (∃ new, st'.tables = st.tables ++ new) ∧
      ∀ n ∈ names, st'.hasTable db n = true
  | [], st, st', t, h => by
    simp only [lookupLoop, Prod.mk.injEq, Except.ok.injEq] at h
    rw [← h.1]
    exact ⟨rfl, rfl, ⟨[], by simp⟩, by simp⟩
  | m :: rest, st, st', t, h => by
    simp only [lookupLoop, does_table_exist_glueService] at h
    by_cases hm : st.hasTable db m
    · simp only [hm] at h
      rcases hr : lookupLoop glueService db uri now st rest with ⟨r1, t2⟩
      rw [hr] at h
      simp only [Prod.mk.injEq] at h
      rw [h.1] at hr
      obtain ⟨hdb, hpart, ⟨new, htab⟩, hall⟩ := lookupLoop_post hr
      exact ⟨hdb, hpart, ⟨new, htab⟩, by
        intro n hn
        rcases List.mem_cons.mp hn with rfl | hn'
        · exact hasTable_mono htab hm
        · exact hall n hn'⟩
    · simp only [hm] at h
      by_cases hdb : db ∈ st.databases
      · have hcond : st.hasTable db (lookupTableInput uri m now).Name = false :=
          Bool.eq_false_iff.mpr hm
        rw [glueService_create_table, if_neg (by simp [hdb]),
          if_neg (by simp [hcond])] at h
        simp only [Prod.mk.injEq] at h
        rcases hr : lookupLoop glueService db uri now
            { st with tables := st.tables ++ [(db, lookupTableInput uri m now)] }
            rest with ⟨r1, t2⟩
        obtain ⟨h1, h2⟩ := h
        rw [hr] at h1
        have hok : r1 = Except.ok st' := h1
        subst hok
        obtain ⟨hdbs, hpart, ⟨new, htab⟩, hall⟩ := lookupLoop_post hr
        refine ⟨by simpa using hdbs, by simpa using hpart,
          ⟨(db, lookupTableInput uri m now) :: new, by simpa using htab⟩, ?_⟩
        intro n hn
        rcases List.mem_cons.mp hn with rfl | hn'
        · refine hasTable_mono htab ?_
          simp only [CatalogState.hasTable, List.any_append, Bool.or_eq_true]
          exact Or.inr (by simp [lookupTableInput])
        · exact hall n hn'
      · rw [glueService_create_table, if_pos (by simp [hdb])] at h
        simp at h

/-- Every table create issued by the loop targets the given database, bears a
listed name that was absent when the loop started, and carries exactly the
fixed two-column lookup input. -/
theorem lookupLoop_creates {db uri : String} {now : Nat} :
    ∀ {names : List String} {st st' : CatalogState} {t : List GlueCall},
    lookupLoop glueService db uri now st names = (.ok st', t) →
    ∀ d input, GlueCall.createTable d input ∈ t →
      d = db ∧ input.Name ∈ names ∧ st.hasTable db input.Name = false ∧
        input = lookupTableInput uri input.Name now
  | [], st, st', t, h => by
    simp only [lookupLoop, Prod.mk.injEq, Except.ok.injEq] at h
    rw [← h.2]
    intro d input hmem
    simp at hmem
  | m :: rest, st, st', t, h => by
    simp only [lookupLoop, does_table_exist_glueService] at h
    by_cases hm : st.hasTable db m
    · simp only [hm] at h
      rcases hr : lookupLoop glueService db uri now st rest with ⟨r1, t2⟩
      rw [hr] at h
      simp only [Prod.mk.injEq] at h
      have hok : r1 = Except.ok st' := h.1
      subst hok
      intro d input hmem
      rw [← h.2] at hmem
      rcases List.mem_append.mp hmem with hl | hr'
      · simp at hl
      · obtain ⟨hd, hmem2, habs, hin⟩ := lookupLoop_creates hr d input hr'
        exact ⟨hd, by simp [hmem2], habs, hin⟩
    · simp only [hm] at h
      by_cases hdb : db ∈ st.databases
      · have hcond : st.hasTable db (lookupTableInput uri m now).Name = false :=
          Bool.eq_false_iff.mpr hm
        rw [glueService_create_table, if_neg (by simp [hdb]),
          if_neg (by simp [hcond])] at h
        simp only [Prod.mk.injEq] at h
        obtain ⟨h1, h2⟩ := h
        rcases hr : lookupLoop glueService db uri now
            { st with tables := st.tables ++ [(db, lookupTableInput uri m now)] }
            rest with ⟨r1, t2⟩
        rw [hr] at h1 h2
        have hok : r1 = Except.ok st' := h1
        subst hok
        intro d input hmem
        rw [← h2] at hmem
        rcases List.mem_append.mp hmem with hl | hr'
        · rcases List.mem_append.mp hl with hg | hc
          · simp at hg
          · have : d = db ∧ input = lookupTableInput uri m now := by
              simpa using hc
            obtain ⟨rfl, rfl⟩ := this
            exact ⟨rfl, by simp [lookupTableInput], Bool.eq_false_iff.mpr hm,
              rfl⟩
        · obtain ⟨hd, hmem2, habs, hin⟩ := lookupLoop_creates hr d input hr'
          refine ⟨hd, by simp [hmem2], ?_, hin⟩
          exact hasTable_anti rfl habs
      · rw [glueService_create_table, if_pos (by simp [hdb])] at h
        simp at h

/-- After a successful loop run, a listed table that was absent at loop start
is found in the catalog with exactly the fixed two-column lookup input. -/
theorem lookupLoop_find {db uri : String} {now : Nat} :
    ∀ {names : List String} {st st' : CatalogState} {t : List GlueCall},
    names.Nodup →
    lookupLoop glueService db uri now st names = (.ok st', t) →
    ∀ n ∈ names, st.hasTable db n = false →
      st'.findTable db n = some (lookupTableInput uri n now)
  | [], _, _, _, _, _ => by
    intro n hn
    simp at hn
  | m :: rest, st, st', t, hnd, h => by
    have hm_notin : m ∉ rest := (List.nodup_cons.mp hnd).1
    have hndr : rest.Nodup := (List.nodup_cons.mp hnd).2
    simp only [lookupLoop, does_table_exist_glueService] at h
    intro n hn habs
    by_cases hm : st.hasTable db m
    · simp only [hm] at h
      rcases hr : lookupLoop glueService db uri now st rest with ⟨r1, t2⟩
      rw [hr] at h
      simp only [Prod.mk.injEq] at h
      have hok : r1 = Except.ok st' := h.1
      subst hok
      rcases List.mem_cons.mp hn with rfl | hn2
      · exact absurd hm (by simp [habs])
      · exact lookupLoop_find hndr hr n hn2 habs
    · simp only [hm] at h
      by_cases hdb : db ∈ st.databases
      · have hcond : st.hasTable db (lookupTableInput uri m now).Name = false :=
          Bool.eq_false_iff.mpr hm
        rw [glueService_create_table, if_neg (by simp [hdb]),
          if_neg (by simp [hcond])] at h
        simp only [Prod.mk.injEq] at h
        obtain ⟨h1, h2⟩ := h
        rcases hr : lookupLoop glueService db uri now
            { st with tables := st.tables ++ [(db, lookupTableInput uri m now)] }
            rest with ⟨r1, t2⟩
        rw [hr] at h1
        have hok : r1 = Except.ok st' := h1
        subst hok
        rcases List.mem_cons.mp hn with rfl | hn2
        · have hfind1 : ({ st with tables :=
              st.tables ++ [(db, lookupTableInput uri n now)] } :
                CatalogState).findTable db n
              = some (lookupTableInput uri n now) :=
            findTable_of_absent habs rfl rfl
          obtain ⟨_, _, ⟨new, htab⟩, _⟩ := lookupLoop_post hr
          exact findTable_mono htab hfind1
        · have hne : ¬ m = n := fun hEq => hm_notin (hEq ▸ hn2)
          have habs1 : ({ st with tables :=
              st.tables ++ [(db, lookupTableInput uri m now)] } :
                CatalogState).hasTable db n = false := by
            simp only [CatalogState.hasTable, List.any_append,
              Bool.or_eq_false_iff]
            refine ⟨habs, by simp [lookupTableInput, hne]⟩
          exact lookupLoop_find hndr hr n hn2 habs1
      · rw [glueService_create_table, if_pos (by simp [hdb])] at h
        simp at h

/-! ## Decomposing a successful handler run into its four steps -/

/-- A successful handler run is exactly a successful database step, then
table step, then lookup step, then partition step, with the overall call
trace being their concatenation in that order. -/
theorem handler_decomp {σ : Type} {c : GlueClient σ}
    {s3 : String → Option String} {ev : Event} {dbn : String} {now : Nat}
    {st st' : σ} {tr : List GlueCall}
    (h : handler c s3 ev dbn now st = (.ok st', tr)) :
    ∃ s1 s2 s3' t1 t2 t3 t4,
      create_db c st dbn = (.ok s1, t1) ∧
      create_glue_table c s3 s1 dbn (rstripSlash ev.reportBase)
        ev.reportDate now = (.ok s2, t2) ∧
      create_lookup_tables c s2 dbn (rstripSlash ev.lookupURI) now
        = (.ok s3', t3) ∧
      add_hitdata_partition c s3 s3' dbn (rstripSlash ev.reportBase)
        ev.reportDate = (.ok st', t4) ∧
      tr = t1 ++ t2 ++ t3 ++ t4 := by
  simp only [handler] at h
  rcases h1 : create_db c st dbn with ⟨e | s1, t1⟩ <;> simp only [h1] at h
  · simp at h
  rcases h2 : create_glue_table c s3 s1 dbn (rstripSlash ev.reportBase)
      ev.reportDate now with ⟨e | s2, t2⟩ <;> simp only [h2] at h
  · simp at h
  rcases h3 : create_lookup_tables c s2 dbn (rstripSlash ev.lookupURI) now
      with ⟨e | s3', t3⟩ <;> simp only [h3] at h
  · simp at h
  rcases h4 : add_hitdata_partition c s3 s3' dbn (rstripSlash ev.reportBase)
      ev.reportDate with ⟨r4, t4⟩
  rw [h4] at h
  simp only [Prod.mk.injEq] at h
  obtain ⟨hr4, htr⟩ := h
  subst hr4
  exact ⟨s1, s2, s3', t1, t2, t3, t4, rfl, h2, h3, h4, htr.symm⟩

/-- Since table existence only reads the tables list, equal tables lists give
equal answers. -/
theorem hasTable_congr {st st' : CatalogState} (heq : st'.tables = st.tables)
    {db tbl : String} (h : st.hasTable db tbl = true) :
    st'.hasTable db tbl = true := by
  simpa [CatalogState.hasTable, heq] using h

/-- After a successful handler run over the honest catalog, the database, the
`hit_data` table, every lookup table, and the date's partition all exist. -/
theorem handler_post {s3 : String → Option String} {ev : Event}
    {dbn : String} {now : Nat} {st st' : CatalogState} {tr : List GlueCall}
    (h : handler glueService s3 ev dbn now st = (.ok st', tr)) :
    dbn ∈ st'.databases ∧ st'.hasTable dbn "hit_data" = true ∧
      (∀ n ∈ generic_lookup_types, st'.hasTable dbn n = true) ∧
      st'.hasPartition dbn "hit_data" [ev.reportDate] = true := by
  obtain ⟨s1, s2, s3', t1, t2, t3, t4, h1, h2, h3, h4, htr⟩ := handler_decomp h
  obtain ⟨hdb1, htab1, hpart1⟩ := create_db_post h1
  obtain ⟨hhit2, hdbs2, hparts2, new2, htab2⟩ := create_glue_table_post h2
  have h3' : lookupLoop glueService dbn (rstripSlash ev.lookupURI) now s2
      generic_lookup_types = (.ok s3', t3) := h3
  obtain ⟨hdbs3, hparts3, ⟨new3, htab3⟩, hall3⟩ := lookupLoop_post h3'
  obtain ⟨hpart4, hdbs4, htabs4, new4, hparts4⟩ := add_hitdata_partition_post h4
  refine ⟨?_, ?_, ?_, hpart4⟩
  · rw [hdbs4, hdbs3, hdbs2]
    exact hdb1
  · refine hasTable_congr htabs4 ?_
    exact hasTable_mono htab3 hhit2
  · intro n hn
    exact hasTable_congr htabs4 (hall3 n hn)

/-- When every object already exists, the handler only reads: it performs the
four existence checks (one per lookup table) and returns the state
unchanged. -/
theorem handler_skip_run {s3 : String → Option String} {ev : Event}
    {dbn : String} {now : Nat} {st : CatalogState}
    (h1 : dbn ∈ st.databases) (h2 : st.hasTable dbn "hit_data" = true)
    (h3 : ∀ n ∈ generic_lookup_types, st.hasTable dbn n = true)
    (h4 : st.hasPartition dbn "hit_data" [ev.reportDate] = true) :
    handler glueService s3 ev dbn now st =
      (.ok st,
       [GlueCall.getDatabase dbn, GlueCall.getTable dbn "hit_data"]
         ++ (generic_lookup_types.map fun n => GlueCall.getTable dbn n)
         ++ [GlueCall.getPartition dbn "hit_data" [ev.reportDate]]) := by
  have e1 : create_db glueService st dbn = (.ok st, [.getDatabase dbn]) := by
    rw [create_db_glueService, if_pos h1]
  have e2 : create_glue_table glueService s3 st dbn
      (rstripSlash ev.reportBase) ev.reportDate now
      = (.ok st, [.getTable dbn "hit_data"]) := by
    rw [create_glue_table_glueService, if_pos h2]
  have e3 : create_lookup_tables glueService st dbn
      (rstripSlash ev.lookupURI) now
      = (.ok st, generic_lookup_types.map fun n => GlueCall.getTable dbn n) :=
    lookupLoop_skip h3
  have e4 : add_hitdata_partition glueService s3 st dbn
      (rstripSlash ev.reportBase) ev.reportDate
      = (.ok st, [.getPartition dbn "hit_data" [ev.reportDate]]) := by
    rw [add_hitdata_partition_glueService, if_pos h4]
  simp only [handler, e1, e2, e3, e4]
  simp

/-- Any database create issued by `create_db` targets the requested name and
happened only because the existence check reported it absent. -/
theorem create_db_creates {st : CatalogState} {n : String}
    {r : Except PyErr CatalogState} {t : List GlueCall}
    (h : create_db glueService st n = (r, t)) :
    ∀ m, GlueCall.createDatabase m ∈ t → m = n ∧ n ∉ st.databases := by
  rw [create_db_glueService] at h
  by_cases hm : n ∈ st.databases
  · rw [if_pos hm] at h
    simp only [Prod.mk.injEq] at h
    rw [← h.2]
    intro m hmem
    simp at hmem
  · rw [if_neg hm] at h
    simp only [Prod.mk.injEq] at h
    rw [← h.2]
    intro m hmem
    simp only [List.mem_cons, List.mem_singleton] at hmem
    rcases hmem with h1 | h1 | h1
    · cases h1
    · cases h1; exact ⟨rfl, hm⟩
    · cases h1

/-- Any table create issued by `create_glue_table` targets the requested
database, names `hit_data`, and happened only because the existence check
reported the table absent. -/
theorem create_glue_table_creates {s3 : String → Option String}
    {st : CatalogState} {db base date : String} {now : Nat}
    {r : Except PyErr CatalogState} {t : List GlueCall}
    (h : create_glue_table glueService s3 st db base date now = (r, t)) :
    ∀ d input, GlueCall.createTable d input ∈ t →
      d = db ∧ input.Name = "hit_data" ∧
        st.hasTable db "hit_data" = false := by
  rw [create_glue_table_glueService] at h
  by_cases ht : st.hasTable db "hit_data"
  · rw [if_pos ht] at h
    simp only [Prod.mk.injEq] at h
    rw [← h.2]
    intro d input hmem
    simp at hmem
  · rw [if_neg ht] at h
    cases hh : get_headers s3 base date with
    | error e =>
      rw [hh] at h
      simp only [Prod.mk.injEq] at h
      rw [← h.2]
      intro d input hmem
      simp at hmem
    | ok headers =>
      simp only [hh] at h
      have hfalse : st.hasTable db "hit_data" = false := Bool.eq_false_iff.mpr ht
      by_cases hdb : db ∈ st.databases
      · rw [if_pos hdb] at h
        simp only [Prod.mk.injEq] at h
        rw [← h.2]
        intro d input hmem
        simp only [List.mem_cons, List.mem_singleton] at hmem
        rcases hmem with h1 | h1 | h1
        · cases h1
        · cases h1; exact ⟨rfl, rfl, hfalse⟩
        · cases h1
      · rw [if_neg hdb] at h
        simp only [Prod.mk.injEq] at h
        rw [← h.2]
        intro d input hmem
        simp only [List.mem_cons, List.mem_singleton] at hmem
        rcases hmem with h1 | h1 | h1
        · cases h1
        · cases h1; exact ⟨rfl, rfl, hfalse⟩
        · cases h1

/-- Any partition create issued by `add_hitdata_partition` targets the
requested database and the `hit_data` table, carries exactly the requested
date as its value tuple, and happened only because the existence check
reported the partition absent. -/
theorem add_hitdata_partition_creates {s3 : String → Option String}
    {st : CatalogState} {db base date : String}
    {r : Except PyErr CatalogState} {t : List GlueCall}
    (h : add_hitdata_partition glueService s3 st db base date = (r, t)) :
    ∀ d tb input, GlueCall.createPartition d tb input ∈ t →
      d = db ∧ tb = "hit_data" ∧ input.Values = [date] ∧
        st.hasPartition db "hit_data" [date] = false := by
  rw [add_hitdata_partition_glueService] at h
  by_cases hp : st.hasPartition db "hit_data" [date]
  · rw [if_pos hp] at h
    simp only [Prod.mk.injEq] at h
    rw [← h.2]
    intro d tb input hmem
    simp at hmem
  · rw [if_neg hp] at h
    cases hh : get_headers s3 base date with
    | error e =>
      rw [hh] at h
      simp only [Prod.mk.injEq] at h
      rw [← h.2]
      intro d tb input hmem
      simp at hmem
    | ok headers =>
      simp only [hh] at h
      have hfalse : st.hasPartition db "hit_data" [date] = false :=
        Bool.eq_false_iff.mpr hp
      by_cases ht : st.hasTable db "hit_data"
      · rw [if_pos ht] at h
        simp only [Prod.mk.injEq] at h
        rw [← h.2]
        intro d tb input hmem
        simp only [List.mem_cons, List.mem_singleton] at hmem
        rcases hmem with h1 | h1 | h1
        · cases h1
        · cases h1; exact ⟨rfl, rfl, rfl, hfalse⟩
        · cases h1
      · rw [if_neg ht] at h
        simp only [Prod.mk.injEq] at h
        rw [← h.2]
        intro d tb input hmem
        simp only [List.mem_cons, List.mem_singleton] at hmem
        rcases hmem with h1 | h1 | h1
        · cases h1
        · cases h1; exact ⟨rfl, rfl, rfl, hfalse⟩
        · cases h1

/-! ## The header file path -/

/-- In the common case `os.path.join` inserts exactly one separator. -/
theorem pyJoin_eq {a b : String} (hb : startsWithSlash b = false)
    (ha1 : a ≠ "") (ha2 : endsWithSlash a = false) :
    pyJoin a b = a ++ "/" ++ b := by
  unfold pyJoin
  rw [if_neg (by simp [hb]), if_neg (by simp [ha1, ha2])]

/-- Appending a nonempty string keeps a string nonempty. -/
theorem append_ne_empty (a b : String) (hb : b.data ≠ []) : a ++ b ≠ "" := by
  intro h
  have hd : (a ++ b).data = [] := by rw [h]
  rw [String.data_append] at hd
  exact hb (List.append_eq_nil.mp hd).2

/-- The last character of an append with nonempty second part comes from the
second part. -/
theorem endsWithSlash_append (a b : String) (hb : b.data ≠ []) :
    endsWithSlash (a ++ b) = endsWithSlash b := by
  unfold endsWithSlash
  rw [String.data_append, List.getLast?_append_of_ne_nil _ hb]

/-- For a nonempty base URI with no trailing slash and a date with no trailing
slash, `get_headers` computes exactly the path template of the spec. -/
theorem headerFilePath_eq {base date : String} (h1 : base ≠ "")
    (h2 : endsWithSlash base = false) (h3 : endsWithSlash date = false) :
    headerFilePath base date =
      base ++ "/rawtsv/column_headers/dt=" ++ date
        ++ "/column_headers.tsv.gz" := by
  have j1 : pyJoin base "rawtsv" = base ++ "/" ++ "rawtsv" :=
    pyJoin_eq (by decide) h1 h2
  have n1 : base ++ "/" ++ "rawtsv" ≠ "" :=
    append_ne_empty _ _ (by decide)
  have e1 : endsWithSlash (base ++ "/" ++ "rawtsv") = false := by
    rw [endsWithSlash_append _ _ (by decide)]
    decide
  have j2 : pyJoin (base ++ "/" ++ "rawtsv") "column_headers"
      = base ++ "/" ++ "rawtsv" ++ "/" ++ "column_headers" :=
    pyJoin_eq (by decide) n1 e1
  have n2 : base ++ "/" ++ "rawtsv" ++ "/" ++ "column_headers" ≠ "" :=
    append_ne_empty _ _ (by decide)
  have e2 : endsWithSlash (base ++ "/" ++ "rawtsv" ++ "/" ++ "column_headers")
      = false := by
    rw [endsWithSlash_append _ _ (by decide)]
    decide
  have j3 : pyJoin (base ++ "/" ++ "rawtsv" ++ "/" ++ "column_headers")
      ("dt=" ++ date)
      = base ++ "/" ++ "rawtsv" ++ "/" ++ "column_headers" ++ "/"
        ++ ("dt=" ++ date) := by
    refine pyJoin_eq ?_ n2 e2
    unfold startsWithSlash
    rw [String.data_append,
      show ("dt=".data) = ['d', 't', '='] from by decide]
    simp
  have n3 : base ++ "/" ++ "rawtsv" ++ "/" ++ "column_headers" ++ "/"
      ++ ("dt=" ++ date) ≠ "" := by
    refine append_ne_empty _ _ ?_
    rw [String.data_append]
    simp
  have e3 : endsWithSlash (base ++ "/" ++ "rawtsv" ++ "/" ++ "column_headers"
      ++ "/" ++ ("dt=" ++ date)) = false := by
    rw [endsWithSlash_append _ _ (by rw [String.data_append]; simp)]
    cases hdat : date.data with
    | nil =>
      unfold endsWithSlash
      rw [String.data_append, hdat]
      decide
    | cons c cs =>
      unfold endsWithSlash
      rw [String.data_append, List.getLast?_append_of_ne_nil _
        (by simp [hdat])]
      unfold endsWithSlash at h3
      exact h3
  have j4 : pyJoin (base ++ "/" ++ "rawtsv" ++ "/" ++ "column_headers" ++ "/"
      ++ ("dt=" ++ date)) "column_headers.tsv.gz"
      = base ++ "/" ++ "rawtsv" ++ "/" ++ "column_headers" ++ "/"
        ++ ("dt=" ++ date) ++ "/" ++ "column_headers.tsv.gz" :=
    pyJoin_eq (by decide) n3 e3
  unfold headerFilePath
  rw [j1, j2, j3, j4]
  apply String.ext
  simp [String.data_append, List.append_assoc]

/-! ## Claims -/

/-- Claim C5, counterexample: the code's `str.strip()` also removes LEADING
whitespace, so on header content starting with a space the code disagrees
with the spec's "trims trailing whitespace/newline (and no other content)":
the leading space of the first column name is eaten. -/
theorem get_headers_strip_cex :
    get_headers leadingWsS3 "s3://b" "2024-01-01" = .ok ["a", "b"] ∧
    get_headers_spec leadingWsS3 "s3://b" "2024-01-01" = .ok [" a", "b"] ∧
    (["a", "b"] : List String) ≠ [" a", "b"] :=
  ⟨by decide, by decide, by decide⟩

/-- Claim C5 (amended): for every nonempty base URI without a trailing slash
and date without a trailing slash, the header resolver fetches the object at
exactly the template path, trims LEADING AND trailing whitespace, and splits
the result on the tab character, returning the column names in file order. -/
theorem get_headers_amended (s3 : String → Option String) (base date : String)
    (h1 : base ≠ "") (h2 : endsWithSlash base = false)
    (h3 : endsWithSlash date = false) :
    get_headers s3 base date = get_headers_spec_amended s3 base date := by
  unfold get_headers get_headers_spec_amended
  rw [headerFilePath_eq h1 h2 h3]

/-- Concrete instance of `get_headers_amended`. -/
theorem get_headers_amended_witness :
    ("s3://b" ≠ "" ∧ endsWithSlash "s3://b" = false ∧
      endsWithSlash "2024-01-01" = false) ∧
    get_headers leadingWsS3 "s3://b" "2024-01-01"
      = get_headers_spec_amended leadingWsS3 "s3://b" "2024-01-01" :=
  ⟨⟨by decide, by decide, by decide⟩,
   get_headers_amended leadingWsS3 "s3://b" "2024-01-01" (by decide)
     (by decide) (by decide)⟩

/-- Claim C10: when the header file's decoded content is empty or only
whitespace, the resolver returns the one-element list holding the empty
string — never the empty list — and a table or partition input built from it
has exactly one column whose name is the empty string. -/
theorem get_headers_empty_content (s3 : String → Option String)
    (base date text : String)
    (hs : s3 (headerFilePath base date) = some text)
    (hw : text.data.all Char.isWhitespace = true) :
    get_headers s3 base date = .ok [""] ∧
    ∀ now : Nat,
      (hitDataTableInput base now [""]).StorageDescriptor.Columns
        = [{ Name := "", Typ := "string" }] ∧
      (hitDataPartitionInput base date [""]).StorageDescriptor.Columns
        = [{ Name := "", Typ := "string" }] := by
  have hstrip : pyStrip text = "" := by
    unfold pyStrip
    have hdw : text.data.dropWhile Char.isWhitespace = [] := by
      rw [List.dropWhile_eq_nil_iff]
      intro x hx
      exact List.all_eq_true.mp hw x hx
    rw [hdw]
    rfl
  refine ⟨?_, fun now => ⟨rfl, rfl⟩⟩
  unfold get_headers
  simp only [hs]
  rw [hstrip]
  decide

/-- Concrete instance of `get_headers_empty_content`. -/
theorem get_headers_empty_content_witness :
    get_headers wsOnlyS3 "s3://w" "2024-01-01" = .ok [""] ∧
    ∀ now : Nat,
      (hitDataTableInput "s3://w" now [""]).StorageDescriptor.Columns
        = [{ Name := "", Typ := "string" }] ∧
      (hitDataPartitionInput "s3://w" "2024-01-01" [""]).StorageDescriptor.Columns
        = [{ Name := "", Typ := "string" }] :=
  get_headers_empty_content wsOnlyS3 "s3://w" "2024-01-01" "  \n" (by decide)
    (by decide)

/-- Claim C4: for every ordered header list, the storage descriptor built for
the base table declares exactly one string-typed column per header name, in
header order; its serde is the OpenCSV serde with the tab separator; and both
auxiliary maps (`BucketColumns` and the descriptor-level `Parameters`) are
present and empty.  The last conjunct ties this to the descriptor that
`create_glue_table` actually embeds in its `TableInput`. -/
theorem base_table_descriptor_schema (headers : List String)
    (loc base : String) (now : Nat) :
    (storage_descriptor (headers.map fun name => { Typ := "string", Name := name })
        loc).Columns.length = headers.length ∧
    (∀ i : Nat,
      (storage_descriptor (headers.map fun name => { Typ := "string", Name := name })
          loc).Columns.get? i
        = (headers.get? i).map fun name => { Name := name, Typ := "string" }) ∧
    (storage_descriptor (headers.map fun name => { Typ := "string", Name := name })
        loc).SerdeInfo.SerializationLibrary
      = "org.apache.hadoop.hive.serde2.OpenCSVSerde" ∧
    (storage_descriptor (headers.map fun name => { Typ := "string", Name := name })
        loc).SerdeInfo.Parameters = [("separatorChar", "\t")] ∧
    (storage_descriptor (headers.map fun name => { Typ := "string", Name := name })
        loc).BucketColumns = [] ∧
    (storage_descriptor (headers.map fun name => { Typ := "string", Name := name })
        loc).Parameters = [] ∧
    (hitDataTableInput base now headers).StorageDescriptor
      = storage_descriptor (headers.map fun name => { Typ := "string", Name := name })
          (base ++ "/rawtsv/hit_data/") := by
  refine ⟨by simp [storage_descriptor], ?_, rfl, rfl, rfl, rfl, rfl⟩
  intro i
  simp [storage_descriptor, List.getElem?_map]

/-- Claim C9: if the `hit_data` table already exists when the table-creation
step runs, the step performs no catalog write at all — its only call is the
existence probe — and it returns the catalog state unchanged, whatever the
current date's header file contains. -/
theorem create_glue_table_existing_untouched {s3 : String → Option String}
    {st : CatalogState} {db base date : String} {now : Nat}
    (h : st.hasTable db "hit_data" = true) :
    create_glue_table glueService s3 st db base date now
      = (.ok st, [.getTable db "hit_data"]) := by
  rw [create_glue_table_glueService, if_pos h]

/-- Concrete instance of `create_glue_table_existing_untouched`: re-running
the table step on the post-run catalog, even with a different date whose
header file differs, changes nothing. -/
theorem create_glue_table_existing_untouched_witness :
    create_glue_table glueService demoS3 demoRunState "adobedb"
        "s3://bucket/feed" "2024-04-01" 7
      = (.ok demoRunState, [.getTable "adobedb" "hit_data"]) :=
  create_glue_table_existing_untouched (by decide)

/-- Claim C6: when the date's partition does not yet exist (and the base
table does), the partition step re-resolves the headers via its own
`get_headers` call on the current store — the created partition's column list
comes from those headers, not from the stored table schema — and creates a
partition whose location is exactly the dated sub-prefix; the partition list
is only appended to, so partitions of every other date are neither altered
nor duplicated. -/
theorem add_hitdata_partition_fresh {s3 : String → Option String}
    {st : CatalogState} {db base date : String} {headers : List String}
    (hp : st.hasPartition db "hit_data" [date] = false)
    (ht : st.hasTable db "hit_data" = true)
    (hh : get_headers s3 base date = .ok headers) :
    add_hitdata_partition glueService s3 st db base date
      = (.ok { st with partitions := st.partitions
            ++ [(db, "hit_data", hitDataPartitionInput base date headers)] },
         [.getPartition db "hit_data" [date],
          .createPartition db "hit_data"
            (hitDataPartitionInput base date headers)]) ∧
    (hitDataPartitionInput base date headers).Values = [date] ∧
    (hitDataPartitionInput base date headers).StorageDescriptor.Location
      = base ++ "/rawtsv/hit_data/dt=" ++ date ++ "/" ∧
    (hitDataPartitionInput base date headers).StorageDescriptor.Columns
      = headers.map (fun name => { Name := name, Typ := "string" }) ∧
    ∀ p ∈ st.partitions, p ∈ (st.partitions
        ++ [(db, "hit_data", hitDataPartitionInput base date headers)]) := by
  refine ⟨?_, rfl, rfl, by simp [hitDataPartitionInput, storage_descriptor],
    fun p hp2 => List.mem_append_left _ hp2⟩
  rw [add_hitdata_partition_glueService, if_neg (by simp [hp])]
  simp only [hh]
  rw [if_pos ht]

/-- Concrete instance of `add_hitdata_partition_fresh`: adding the
2024-04-01 partition to the post-run catalog (which holds the 2024-03-01
partition). -/
theorem add_hitdata_partition_fresh_witness :
    add_hitdata_partition glueService demoS3 demoRunState "adobedb"
        "s3://bucket/feed" "2024-04-01"
      = (.ok { demoRunState with partitions := demoRunState.partitions
            ++ [("adobedb", "hit_data",
                hitDataPartitionInput "s3://bucket/feed" "2024-04-01"
                  ["x", "y"])] },
         [.getPartition "adobedb" "hit_data" ["2024-04-01"],
          .createPartition "adobedb" "hit_data"
            (hitDataPartitionInput "s3://bucket/feed" "2024-04-01"
              ["x", "y"])]) ∧
    (hitDataPartitionInput "s3://bucket/feed" "2024-04-01" ["x", "y"]).Values
      = ["2024-04-01"] ∧
    (hitDataPartitionInput "s3://bucket/feed" "2024-04-01"
        ["x", "y"]).StorageDescriptor.Location
      = "s3://bucket/feed" ++ "/rawtsv/hit_data/dt=" ++ "2024-04-01" ++ "/" ∧
    (hitDataPartitionInput "s3://bucket/feed" "2024-04-01"
        ["x", "y"]).StorageDescriptor.Columns
      = (["x", "y"] : List String).map
          (fun name => { Name := name, Typ := "string" }) ∧
    ∀ p ∈ demoRunState.partitions, p ∈ (demoRunState.partitions
        ++ [("adobedb", "hit_data",
            hitDataPartitionInput "s3://bucket/feed" "2024-04-01"
              ["x", "y"])]) :=
  add_hitdata_partition_fresh (by decide) (by decide) (by decide)

/-- Claim C2: if a full handler run over the honest catalog succeeds, running
it again with the same input succeeds, returns the very same catalog state,
and issues no create call at all — the second run only reads. -/
theorem handler_idempotent {s3 : String → Option String} {ev : Event}
    {dbn : String} {now' : Nat} {st' : CatalogState} (now : Nat)
    (st : CatalogState) (tr : List GlueCall)
    (h : handler glueService s3 ev dbn now st = (.ok st', tr)) :
    (handler glueService s3 ev dbn now' st').1 = .ok st' ∧
    ∀ a ∈ (handler glueService s3 ev dbn now' st').2, a.isCreate = false := by
  obtain ⟨hdb, hhit, hlk, hpart⟩ := handler_post h
  rw [handler_skip_run hdb hhit hlk hpart]
  refine ⟨rfl, ?_⟩
  intro a ha
  simp only [List.mem_append, List.mem_cons, List.mem_singleton,
    List.mem_map, List.not_mem_nil, or_false] at ha
  rcases ha with ((rfl | rfl) | ⟨n, _, rfl⟩) | rfl <;> rfl

/-- Concrete instance of `handler_idempotent`: the end-to-end demo run. -/
theorem handler_idempotent_witness :
    (handler glueService demoS3 demoEvent "adobedb" 99 demoRunState).1
      = .ok demoRunState ∧
    ∀ a ∈ (handler glueService demoS3 demoEvent "adobedb" 99
        demoRunState).2, a.isCreate = false :=
  handler_idempotent 0 emptyCatalog demoRunTrace (by decide)

/-- Claim C8: every successful invocation performs its four steps in the
fixed order database, base table, lookup tables, partition — the trace is
exactly the concatenation of the four step traces — and each step's create
call is present only when that step's own existence check, against the state
that step ran in, reported the object absent. -/
theorem handler_steps_ordered_and_gated {s3 : String → Option String}
    {ev : Event} {dbn : String} {now : Nat} {st st' : CatalogState}
    {tr : List GlueCall}
    (h : handler glueService s3 ev dbn now st = (.ok st', tr)) :
    ∃ s1 s2 s3' t1 t2 t3 t4,
      create_db glueService st dbn = (.ok s1, t1) ∧
      create_glue_table glueService s3 s1 dbn (rstripSlash ev.reportBase)
        ev.reportDate now = (.ok s2, t2) ∧
      create_lookup_tables glueService s2 dbn (rstripSlash ev.lookupURI) now
        = (.ok s3', t3) ∧
      add_hitdata_partition glueService s3 s3' dbn (rstripSlash ev.reportBase)
        ev.reportDate = (.ok st', t4) ∧
      tr = t1 ++ t2 ++ t3 ++ t4 ∧
      (∀ m, GlueCall.createDatabase m ∈ t1 → m = dbn ∧ dbn ∉ st.databases) ∧
      (∀ d input, GlueCall.createTable d input ∈ t2 →
        d = dbn ∧ input.Name = "hit_data" ∧
          s1.hasTable dbn "hit_data" = false) ∧
      (∀ d input, GlueCall.createTable d input ∈ t3 →
        d = dbn ∧ input.Name ∈ generic_lookup_types ∧
          s2.hasTable dbn input.Name = false) ∧
      (∀ d tb input, GlueCall.createPartition d tb input ∈ t4 →
        d = dbn ∧ tb = "hit_data" ∧ input.Values = [ev.reportDate] ∧
          s3'.hasPartition dbn "hit_data" [ev.reportDate] = false) := by
  obtain ⟨s1, s2, s3', t1, t2, t3, t4, h1, h2, h3, h4, htr⟩ := handler_decomp h
  have h3' : lookupLoop glueService dbn (rstripSlash ev.lookupURI) now s2
      generic_lookup_types = (.ok s3', t3) := h3
  refine ⟨s1, s2, s3', t1, t2, t3, t4, h1, h2, h3, h4, htr,
    create_db_creates h1, create_glue_table_creates h2, ?_,
    add_hitdata_partition_creates h4⟩
  intro d input hmem
  obtain ⟨hd, hname, habs, -⟩ := lookupLoop_creates h3' d input hmem
  exact ⟨hd, hname, habs⟩

/-- Concrete instance of `handler_steps_ordered_and_gated`: the demo run from
the empty catalog. -/
theorem handler_steps_ordered_and_gated_witness :
    ∃ s1 s2 s3' t1 t2 t3 t4,
      create_db glueService emptyCatalog "adobedb" = (.ok s1, t1) ∧
      create_glue_table glueService demoS3 s1 "adobedb"
        (rstripSlash demoEvent.reportBase) demoEvent.reportDate 0
        = (.ok s2, t2) ∧
      create_lookup_tables glueService s2 "adobedb"
        (rstripSlash demoEvent.lookupURI) 0 = (.ok s3', t3) ∧
      add_hitdata_partition glueService demoS3 s3' "adobedb"
        (rstripSlash demoEvent.reportBase) demoEvent.reportDate
        = (.ok demoRunState, t4) ∧
      demoRunTrace = t1 ++ t2 ++ t3 ++ t4 ∧
      (∀ m, GlueCall.createDatabase m ∈ t1 →
        m = "adobedb" ∧ "adobedb" ∉ emptyCatalog.databases) ∧
      (∀ d input, GlueCall.createTable d input ∈ t2 →
        d = "adobedb" ∧ input.Name = "hit_data" ∧
          s1.hasTable "adobedb" "hit_data" = false) ∧
      (∀ d input, GlueCall.createTable d input ∈ t3 →
        d = "adobedb" ∧ input.Name ∈ generic_lookup_types ∧
          s2.hasTable "adobedb" input.Name = false) ∧
      (∀ d tb input, GlueCall.createPartition d tb input ∈ t4 →
        d = "adobedb" ∧ tb = "hit_data" ∧
          input.Values = [demoEvent.reportDate] ∧
          s3'.hasPartition "adobedb" "hit_data" [demoEvent.reportDate]
            = false) :=
  handler_steps_ordered_and_gated (by decide)

/-- Claim C7, counterexample: a lookup-table name that already exists with a
different schema is skipped, so after a successful run it does NOT have the
two-column `id`,`value` schema the claim asserts for every name in the set. -/
theorem lookup_preexisting_schema_cex :
    "browser" ∈ generic_lookup_types ∧
    ((create_lookup_tables glueService preSeededCatalog "db" "s3://lookup"
          0).1.toOption.bind
        fun st => st.findTable "db" "browser").map
          (fun ti => ti.StorageDescriptor.Columns)
      = some [{ Name := "x", Typ := "string" }] ∧
    [({ Name := "x", Typ := "string" } : Column)]
      ≠ [{ Name := "id", Typ := "string" }, { Name := "value", Typ := "string" }] :=
  ⟨by decide, by decide, by decide⟩

/-- Claim C7 (amended): after a successful lookup-table run, every name in
the fixed set exists as a table; every name that was absent beforehand now
holds exactly the fixed input — unpartitioned, two string columns `id` and
`value`, located at the lookup URI plus the name — while pre-existing tables
are left as they were; and a second run performs only reads and creates
nothing. -/
theorem create_lookup_tables_amended {st st' : CatalogState}
    (db uri : String) (now : Nat) (t : List GlueCall)
    (h : create_lookup_tables glueService st db uri now = (.ok st', t)) :
    (∀ n ∈ generic_lookup_types, st'.hasTable db n = true) ∧
    (∀ n ∈ generic_lookup_types, st.hasTable db n = false →
      st'.findTable db n = some (lookupTableInput uri n now)) ∧
    (∀ n : String, (lookupTableInput uri n now).PartitionKeys = [] ∧
      (lookupTableInput uri n now).StorageDescriptor.Columns
        = [{ Name := "id", Typ := "string" },
           { Name := "value", Typ := "string" }] ∧
      (lookupTableInput uri n now).StorageDescriptor.Location
        = uri ++ "/" ++ n ++ "/") ∧
    create_lookup_tables glueService st' db uri now
      = (.ok st', generic_lookup_types.map fun n => GlueCall.getTable db n) := by
  have hloop : lookupLoop glueService db uri now st generic_lookup_types
      = (.ok st', t) := h
  obtain ⟨-, -, -, hall⟩ := lookupLoop_post hloop
  refine ⟨hall, ?_, fun n => ⟨rfl, rfl, rfl⟩, lookupLoop_skip hall⟩
  intro n hn habs
  exact lookupLoop_find (by decide) hloop n hn habs

/-- Concrete instance of `create_lookup_tables_amended`: run over a catalog
holding only the database. -/
theorem create_lookup_tables_amended_witness :
    (∀ n ∈ generic_lookup_types, lookupRunState.hasTable "db" n = true) ∧
    (∀ n ∈ generic_lookup_types, dbOnlyCatalog.hasTable "db" n = false →
      lookupRunState.findTable "db" n
        = some (lookupTableInput "s3://lookup" n 0)) ∧
    (∀ n : String, (lookupTableInput "s3://lookup" n 0).PartitionKeys = [] ∧
      (lookupTableInput "s3://lookup" n 0).StorageDescriptor.Columns
        = [{ Name := "id", Typ := "string" },
           { Name := "value", Typ := "string" }] ∧
      (lookupTableInput "s3://lookup" n 0).StorageDescriptor.Location
        = "s3://lookup" ++ "/" ++ n ++ "/") ∧
    create_lookup_tables glueService lookupRunState "db" "s3://lookup" 0
      = (.ok lookupRunState,
         generic_lookup_types.map fun n => GlueCall.getTable "db" n) :=
  create_lookup_tables_amended "db" "s3://lookup" 0 lookupRunTrace (by decide)

/-- Claim C3: each existence predicate answers `true` exactly when the lookup
succeeds and `false` exactly when it fails with `EntityNotFoundException`;
every other error propagates unchanged; and consequently a non-not-found
error from a probe aborts the step with that error after the probe call
alone — no create is attempted. -/
theorem existence_probes_classify {σ : Type} (c : GlueClient σ) (st : σ)
    (db tbl : String) (values : List String) (s3 : String → Option String)
    (base date : String) (now : Nat) :
    (c.get_table st db tbl = .ok () →
      does_table_exist c st db tbl = (.ok true, [.getTable db tbl])) ∧
    (c.get_table st db tbl = .error .entityNotFound →
      does_table_exist c st db tbl = (.ok false, [.getTable db tbl])) ∧
    (∀ e, e ≠ PyErr.entityNotFound → c.get_table st db tbl = .error e →
      does_table_exist c st db tbl = (.error e, [.getTable db tbl])) ∧
    (c.get_partition st db tbl values = .ok () →
      does_partition_exist c st db tbl values
        = (.ok true, [.getPartition db tbl values])) ∧
    (c.get_partition st db tbl values = .error .entityNotFound →
      does_partition_exist c st db tbl values
        = (.ok false, [.getPartition db tbl values])) ∧
    (∀ e, e ≠ PyErr.entityNotFound →
      c.get_partition st db tbl values = .error e →
      does_partition_exist c st db tbl values
        = (.error e, [.getPartition db tbl values])) ∧
    (∀ e, e ≠ PyErr.entityNotFound →
      c.get_table st db "hit_data" = .error e →
      create_glue_table c s3 st db base date now
        = (.error e, [.getTable db "hit_data"])) ∧
    (∀ e, e ≠ PyErr.entityNotFound →
      c.get_partition st db "hit_data" [date] = .error e →
      add_hitdata_partition c s3 st db base date
        = (.error e, [.getPartition db "hit_data" [date]])) := by
  refine ⟨?_, ?_, ?_, ?_, ?_, ?_, ?_, ?_⟩
  · intro h
    simp [does_table_exist, h]
  · intro h
    simp [does_table_exist, h]
  · intro e hne h
    cases e <;> simp_all [does_table_exist]
  · intro h
    simp [does_partition_exist, h]
  · intro h
    simp [does_partition_exist, h]
  · intro e hne h
    cases e <;> simp_all [does_partition_exist]
  · intro e hne h
    cases e <;> simp_all [create_glue_table, does_table_exist]
  · intro e hne h
    cases e <;> simp_all [add_hitdata_partition, does_partition_exist]

/-- Concrete instance of `existence_probes_classify`: a permission-denied
probe aborts the table step and the partition step with `accessDenied` and a
create-free trace. -/
theorem existence_probes_classify_witness :
    does_table_exist deniedClient () "db" "hit_data"
      = (.error .accessDenied, [.getTable "db" "hit_data"]) ∧
    create_glue_table deniedClient demoS3 () "db" "s3://bucket/feed"
        "2024-03-01" 0
      = (.error .accessDenied, [.getTable "db" "hit_data"]) ∧
    add_hitdata_partition deniedClient demoS3 () "db" "s3://bucket/feed"
        "2024-03-01"
      = (.error .accessDenied, [.getPartition "db" "hit_data" ["2024-03-01"]]) :=
  ⟨(existence_probes_classify deniedClient () "db" "hit_data" [] demoS3
      "s3://bucket/feed" "2024-03-01" 0).2.2.1 .accessDenied (by decide) rfl,
   (existence_probes_classify deniedClient () "db" "hit_data" [] demoS3
      "s3://bucket/feed" "2024-03-01" 0).2.2.2.2.2.2.1 .accessDenied
     (by decide) rfl,
   (existence_probes_classify deniedClient () "db" "hit_data" [] demoS3
      "s3://bucket/feed" "2024-03-01" 0).2.2.2.2.2.2.2 .accessDenied
     (by decide) rfl⟩

/-- Claim C1, counterexample: no step catches `AlreadyExistsException`.  A
client that loses the check-then-act race — its probe reports not-found, its
create is rejected with already-exists — makes `create_db`, and with it the
whole invocation, fail with that error instead of treating it as success. -/
theorem alreadyExists_swallowed_cex :
    (create_db raceClient () "adobedb").1 = .error PyErr.alreadyExists ∧
    (handler raceClient demoS3 demoEvent "adobedb" 0 ()).1
      = .error PyErr.alreadyExists ∧
    (Except.error PyErr.alreadyExists : Except PyErr Unit) ≠ .ok () :=
  ⟨rfl, rfl, by decide⟩

/-- Claim C1 (amended): when the catalog rejects a create with an
already-exists error after the step's own existence check reported the object
absent, every one of the four create-if-absent steps propagates that error to
the caller — the rejection is not swallowed as success. -/
theorem create_steps_propagate_alreadyExists {σ : Type} (c : GlueClient σ)
    (st : σ) (dbn base date uri : String) (now : Nat)
    (s3 : String → Option String) (headers : List String)
    (hgd : c.get_database st dbn = .error .entityNotFound)
    (hcd : c.create_database st dbn = .error .alreadyExists)
    (hgt : ∀ tbl, c.get_table st dbn tbl = .error .entityNotFound)
    (hct : ∀ input, c.create_table st dbn input = .error .alreadyExists)
    (hgp : c.get_partition st dbn "hit_data" [date] = .error .entityNotFound)
    (hcp : ∀ input, c.create_partition st dbn "hit_data" input
      = .error .alreadyExists)
    (hs3 : get_headers s3 base date = .ok headers) :
    (create_db c st dbn).1 = .error PyErr.alreadyExists ∧
    (create_glue_table c s3 st dbn base date now).1
      = .error PyErr.alreadyExists ∧
    (create_lookup_tables c st dbn uri now).1 = .error PyErr.alreadyExists ∧
    (add_hitdata_partition c s3 st dbn base date).1
      = .error PyErr.alreadyExists := by
  refine ⟨?_, ?_, ?_, ?_⟩
  · simp [create_db, hgd, hcd]
  · simp [create_glue_table, does_table_exist, hgt, hs3, hct]
  · simp [create_lookup_tables, generic_lookup_types, lookupLoop,
      does_table_exist, hgt, hct]
  · simp [add_hitdata_partition, does_partition_exist, hgp, hs3, hcp]

/-- Concrete instance of `create_steps_propagate_alreadyExists` at the racing
client. -/
theorem create_steps_propagate_alreadyExists_witness :
    (create_db raceClient () "adobedb").1 = .error PyErr.alreadyExists ∧
    (create_glue_table raceClient demoS3 () "adobedb" "s3://bucket/feed"
        "2024-03-01" 0).1 = .error PyErr.alreadyExists ∧
    (create_lookup_tables raceClient () "adobedb" "s3://bucket/lookup" 0).1
      = .error PyErr.alreadyExists ∧
    (add_hitdata_partition raceClient demoS3 () "adobedb" "s3://bucket/feed"
        "2024-03-01").1 = .error PyErr.alreadyExists :=
  create_steps_propagate_alreadyExists raceClient () "adobedb"
    "s3://bucket/feed" "2024-03-01" "s3://bucket/lookup" 0 demoS3
    ["a", "b", "c"] rfl rfl (fun _ => rfl) (fun _ => rfl) rfl (fun _ => rfl)
    (by decide)
